import Mathlib

/-!
Verification of the OEE-tool repository core logic.

This file shallowly embeds the metric calculator
(src/oee_rd_simulation/oee_calculator.py), the record store
(src/oee_rd_simulation/data_handler.py) and the deletion helper
(src/oee_rd_simulation/gui.py, delete_process_data) in Lean, and proves
or refutes the specification claims about them.

Python floats are modelled as rationals (ℚ); timestamps as natural
numbers (ISO-8601 strings produced by datetime.isoformat compare as
strings exactly in chronological order, and the empty string used as a
default sort key sits strictly below every real timestamp, which the
encoding tsKey reflects).
-/

namespace OEE

/-! ### Metric calculator (oee_calculator.py, class OEECalculator) -/

/-- Python max(0, min(1, x)). -/
def clamp01 (x : ℚ) : ℚ := max 0 (min 1 x)

/-- calculate_availability: returns 0 when total_time <= 0, else
max(0, min(1, (total_time - downtime) / total_time)). -/
def calculate_availability (total_time downtime : ℚ) : ℚ :=
  if total_time ≤ 0 then 0
  else clamp01 ((total_time - downtime) / total_time)

/-- calculate_efficiency: zero-guard on total_time and
ideal_time_per_simulation, then actual_rate / ideal_rate with
ideal_simulations = total_time / ideal_time_per_simulation,
actual_rate = completed / total_time, ideal_rate = ideal_simulations /
total_time, a second zero-guard on ideal_rate, and a clamp. -/
def calculate_efficiency (completed_simulations total_time
    ideal_time_per_simulation : ℚ) : ℚ :=
  if total_time ≤ 0 ∨ ideal_time_per_simulation ≤ 0 then 0
  else
    let ideal_simulations := total_time / ideal_time_per_simulation
    let actual_rate := completed_simulations / total_time
    let ideal_rate := ideal_simulations / total_time
    if ideal_rate ≤ 0 then 0
    else clamp01 (actual_rate / ideal_rate)

/-- calculate_quality: 0 when total_simulations <= 0, else
max(0, min(1, valid_simulations / total_simulations)). -/
def calculate_quality (total_simulations valid_simulations : ℚ) : ℚ :=
  if total_simulations ≤ 0 then 0
  else clamp01 (valid_simulations / total_simulations)

/-- calculate_effectiveness: the plain product A * B * C. -/
def calculate_effectiveness (availability efficiency quality : ℚ) : ℚ :=
  availability * efficiency * quality

/-- The dictionary returned by calculate_complete_oee. -/
structure OEEResult where
  availability : ℚ
  efficiency : ℚ
  quality : ℚ
  effectiveness : ℚ
  deriving DecidableEq, Repr

/-- calculate_complete_oee: composes the four metric functions. -/
def calculate_complete_oee (total_time downtime completed_simulations
    ideal_time_per_simulation total_simulations valid_simulations : ℚ) :
    OEEResult :=
  let availability := calculate_availability total_time downtime
  let efficiency := calculate_efficiency completed_simulations total_time
    ideal_time_per_simulation
  let quality := calculate_quality total_simulations valid_simulations
  let effectiveness := calculate_effectiveness availability efficiency quality
  ⟨availability, efficiency, quality, effectiveness⟩

/-- Efficiency as the specification words it: 0 under the zero-guards,
otherwise the simplified formula (completed * ideal_time_per_unit) /
total_time clamped to [0,1]. Used only to compare with the source
definition calculate_efficiency (claim C2 is a refinement claim). -/
def efficiency_spec (completed total_time ideal_time_per_unit : ℚ) : ℚ :=
  if total_time ≤ 0 ∨ ideal_time_per_unit ≤ 0 then 0
  else clamp01 ((completed * ideal_time_per_unit) / total_time)

/-! Basic facts about the clamp. -/

lemma clamp01_nonneg (x : ℚ) : 0 ≤ clamp01 x := le_max_left 0 _

lemma clamp01_le_one (x : ℚ) : clamp01 x ≤ 1 :=
  max_le (by norm_num) (min_le_left 1 x)

lemma clamp01_of_neg {x : ℚ} (hx : x < 0) : clamp01 x = 0 := by
  unfold clamp01
  rw [min_eq_right (le_of_lt (lt_of_lt_of_le hx (by norm_num)))]
  exact max_eq_left (le_of_lt hx)

lemma clamp01_of_mem {x : ℚ} (h0 : 0 ≤ x) (h1 : x ≤ 1) : clamp01 x = x := by
  unfold clamp01
  rw [min_eq_right h1, max_eq_right h0]

/-- C1: availability returns 0 when total_time ≤ 0; for total_time > 0 it
is (total_time - downtime)/total_time clamped to [0,1]; in particular for
total_time > 0 and downtime > total_time it is exactly 0. -/
theorem availability_C1 (total_time downtime : ℚ) :
    (total_time ≤ 0 → calculate_availability total_time downtime = 0) ∧
    (0 < total_time →
      calculate_availability total_time downtime
        = clamp01 ((total_time - downtime) / total_time)) ∧
    (0 < total_time → total_time < downtime →
      calculate_availability total_time downtime = 0) := by
  refine ⟨fun h => ?_, fun h => ?_, fun h hd => ?_⟩
  · simp [calculate_availability, h]
  · simp [calculate_availability, not_le.mpr h]
  · rw [calculate_availability, if_neg (not_le.mpr h)]
    apply clamp01_of_neg
    apply div_neg_of_neg_of_pos _ h
    linarith

/-- Witness for C1 at total_time = 10, downtime = 25 (downtime exceeding
total_time forces a clamp to exactly 0). -/
theorem availability_C1_witness :
    calculate_availability 10 25 = 0 :=
  (availability_C1 10 25).2.2 (by norm_num) (by norm_num)

/-- C2: the source efficiency (actual throughput rate over ideal
throughput rate, with zero-guards and clamp) coincides everywhere with the
specification formula (completed * ideal_time_per_unit) / total_time
clamped to [0,1] under the same zero-guards. -/
theorem efficiency_C2 (completed total_time ideal_time_per_unit : ℚ) :
    calculate_efficiency completed total_time ideal_time_per_unit
      = efficiency_spec completed total_time ideal_time_per_unit := by
  unfold calculate_efficiency efficiency_spec
  by_cases hg : total_time ≤ 0 ∨ ideal_time_per_unit ≤ 0
  · simp [hg]
  · push_neg at hg
    obtain ⟨ht, hi⟩ := hg
    have ht0 : ¬ total_time ≤ 0 := not_le.mpr ht
    have hi0 : ¬ ideal_time_per_unit ≤ 0 := not_le.mpr hi
    simp only [ht0, hi0, or_self, if_false]
    have hrate : total_time / ideal_time_per_unit / total_time
        = 1 / ideal_time_per_unit := by
      field_simp
      ring
    rw [hrate]
    have hpos : 0 < 1 / ideal_time_per_unit := by positivity
    rw [if_neg (not_le.mpr hpos)]
    congr 1
    field_simp

/-- C3: the concrete scenario total_time=480, downtime=48, completed=102,
ideal_time_per_simulation=4, total_simulations=102, valid=97 yields
availability 9/10 = 0.90, efficiency 17/20 = 0.85, quality 97/102
(≈ 0.9510) and effectiveness 291/400 = 0.7275, the product of the three. -/
theorem complete_oee_C3 :
    calculate_complete_oee 480 48 102 4 102 97
      = ⟨9/10, 17/20, 97/102, 291/400⟩ ∧
    (291 : ℚ)/400 = (9/10) * (17/20) * (97/102) := by
  constructor
  · unfold calculate_complete_oee calculate_availability calculate_efficiency
      calculate_quality calculate_effectiveness clamp01
    norm_num
  · norm_num

/-- C10: for all six rational inputs, each of the four fields returned by
calculate_complete_oee lies in [0,1], with no precondition. -/
theorem complete_oee_C10 (total_time downtime completed_simulations
    ideal_time_per_simulation total_simulations valid_simulations : ℚ) :
    (0 ≤ (calculate_complete_oee total_time downtime completed_simulations
        ideal_time_per_simulation total_simulations
        valid_simulations).availability ∧
      (calculate_complete_oee total_time downtime completed_simulations
        ideal_time_per_simulation total_simulations
        valid_simulations).availability ≤ 1) ∧
    (0 ≤ (calculate_complete_oee total_time downtime completed_simulations
        ideal_time_per_simulation total_simulations
        valid_simulations).efficiency ∧
      (calculate_complete_oee total_time downtime completed_simulations
        ideal_time_per_simulation total_simulations
        valid_simulations).efficiency ≤ 1) ∧
    (0 ≤ (calculate_complete_oee total_time downtime completed_simulations
        ideal_time_per_simulation total_simulations
        valid_simulations).quality ∧
      (calculate_complete_oee total_time downtime completed_simulations
        ideal_time_per_simulation total_simulations
        valid_simulations).quality ≤ 1) ∧
    (0 ≤ (calculate_complete_oee total_time downtime completed_simulations
        ideal_time_per_simulation total_simulations
        valid_simulations).effectiveness ∧
      (calculate_complete_oee total_time downtime completed_simulations
        ideal_time_per_simulation total_simulations
        valid_simulations).effectiveness ≤ 1) := by
  have hA : 0 ≤ calculate_availability total_time downtime ∧
      calculate_availability total_time downtime ≤ 1 := by
    unfold calculate_availability
    split
    · norm_num
    · exact ⟨clamp01_nonneg _, clamp01_le_one _⟩
  have hB : 0 ≤ calculate_efficiency completed_simulations total_time
        ideal_time_per_simulation ∧
      calculate_efficiency completed_simulations total_time
        ideal_time_per_simulation ≤ 1 := by
    unfold calculate_efficiency
    split
    · norm_num
    · dsimp only
      split
      · norm_num
      · exact ⟨clamp01_nonneg _, clamp01_le_one _⟩
  have hC : 0 ≤ calculate_quality total_simulations valid_simulations ∧
      calculate_quality total_simulations valid_simulations ≤ 1 := by
    unfold calculate_quality
    split
    · norm_num
    · exact ⟨clamp01_nonneg _, clamp01_le_one _⟩
  refine ⟨hA, hB, hC, ?_, ?_⟩
  · exact mul_nonneg (mul_nonneg hA.1 hB.1) hC.1
  · calc calculate_availability total_time downtime *
        calculate_efficiency completed_simulations total_time
          ideal_time_per_simulation *
        calculate_quality total_simulations valid_simulations
        ≤ 1 * 1 * 1 := by
          apply mul_le_mul (mul_le_mul hA.2 hB.2 hB.1 (by linarith [hA.1, hA.2]))
            hC.2 hC.1
          norm_num
      _ = 1 := by norm_num

/-! ### Record store (data_handler.py, class SimulationDataHandler) -/

/-- A JSON value as calculate_average_metrics distinguishes them: a
number (Python int or float, modelled as ℚ) or anything else (string,
list, ...), which the isinstance check rejects. -/
inductive JVal where
  | num (q : ℚ)
  | other
  deriving DecidableEq

/-- The ten fixed metric keys initialised in the totals dictionary of
calculate_average_metrics. -/
def metricKeys : List String :=
  ["total_time", "downtime", "completed_simulations",
   "ideal_time_per_simulation", "total_simulations", "valid_simulations",
   "availability", "efficiency", "quality", "effectiveness"]

/-- A simulation-run dictionary as calculate_average_metrics reads it: a
lookup from key to optional value; none models a missing key. -/
def MRecord : Type := String → Option JVal

/-- The numeric contribution of record r to key k: some q when k is in r
with numeric value q (the `key in data and isinstance(data[key],
(int, float))` test of the source), none otherwise. -/
def contributes (r : MRecord) (k : String) : Option ℚ :=
  match r k with
  | some (JVal.num q) => some q
  | _ => none

/-- The list of numeric contributions to key k across the record list;
its sum is totals[key] and its length is counts[key] in the source. -/
def contributions (l : List MRecord) (k : String) : List ℚ :=
  l.filterMap (fun r => contributes r k)

/-- calculate_average_metrics: empty input gives the empty mapping;
otherwise each metric key maps to totals[key] / counts[key] when
counts[key] > 0 and to 0 otherwise. -/
def calculate_average_metrics (l : List MRecord) : List (String × ℚ) :=
  if l.isEmpty then []
  else metricKeys.map (fun k =>
    (k, if 0 < (contributions l k).length
        then (contributions l k).sum / (contributions l k).length
        else 0))

lemma lookup_map_key {l : List String} {f : String → ℚ} {k : String}
    (h : k ∈ l) :
    (l.map (fun x => (x, f x))).lookup k = some (f k) := by
  induction l with
  | nil => cases h
  | cons a t ih =>
    by_cases hk : k = a
    · subst hk
      simp [List.lookup]
    · rcases List.mem_cons.mp h with h1 | h2
      · exact absurd h1 hk
      · have hb : (k == a) = false := beq_eq_false_iff_ne.mpr hk
        rw [List.map_cons, List.lookup, hb]
        exact ih h2

lemma average_lookup (l : List MRecord) (k : String) (hl : l ≠ [])
    (hk : k ∈ metricKeys) :
    (calculate_average_metrics l).lookup k
      = some (if 0 < (contributions l k).length
          then (contributions l k).sum / (contributions l k).length
          else 0) := by
  rw [calculate_average_metrics, if_neg (by simpa [List.isEmpty_iff] using hl)]
  exact lookup_map_key hk

/-- C8: average of the empty record list is the empty mapping; on a
non-empty list every metric key is present in the result, a key with no
contributing record maps to 0, a key with contributing records maps to
the mean over exactly those records, and for a single record each key
present and numeric in it maps to exactly its value. -/
theorem average_metrics_C8 :
    calculate_average_metrics [] = [] ∧
    (∀ l k, l ≠ [] → k ∈ metricKeys → (contributions l k).length = 0 →
      (calculate_average_metrics l).lookup k = some 0) ∧
    (∀ l k, l ≠ [] → k ∈ metricKeys → 0 < (contributions l k).length →
      (calculate_average_metrics l).lookup k
        = some ((contributions l k).sum / (contributions l k).length)) ∧
    (∀ (r : MRecord) k q, k ∈ metricKeys → contributes r k = some q →
      (calculate_average_metrics [r]).lookup k = some q) := by
  refine ⟨rfl, fun l k hl hk h0 => ?_, fun l k hl hk hpos => ?_,
    fun r k q hk hq => ?_⟩
  · rw [average_lookup l k hl hk, if_neg (by omega)]
  · rw [average_lookup l k hl hk, if_pos hpos]
  · have hc : contributions [r] k = [q] := by
      simp [contributions, hq]
    rw [average_lookup [r] k (by simp) hk, hc]
    norm_num

/-- A concrete single-record store for the C8 witness: only the
availability key is present and numeric. -/
def sampleMRecord : MRecord := fun k =>
  if k = "availability" then some (JVal.num (1/2)) else none

/-- Witness for C8: on the single sample record, availability averages to
exactly its stored value 1/2 and the contribution-free key downtime
averages to 0. -/
theorem average_metrics_C8_witness :
    (calculate_average_metrics [sampleMRecord]).lookup "availability"
      = some (1/2) ∧
    (calculate_average_metrics [sampleMRecord]).lookup "downtime"
      = some 0 := by
  constructor
  · exact average_metrics_C8.2.2.2 sampleMRecord "availability" (1/2)
      (by simp [metricKeys]) (by simp [contributes, sampleMRecord])
  · exact average_metrics_C8.2.1 [sampleMRecord] "downtime" (by simp)
      (by simp [metricKeys]) (by simp [contributions, contributes, sampleMRecord])

/-- A stored per-record file as the retrieval and deletion loops see it.
isJson: the filename ends in .json; parseOk: reading the file, parsing
the json and parsing its timestamp string all raise no exception (a file
failing any of these is caught by the try/except and skipped);
modelName and timestamp: the model_name and timestamp entries of the
parsed dictionary, none when the key is absent. -/
structure SimFile where
  isJson : Bool
  parseOk : Bool
  modelName : Option String
  timestamp : Option ℕ
  deriving DecidableEq

/-- The sort key of the source, x.get('timestamp', ''): a missing
timestamp sorts as the empty string, strictly below every real ISO-8601
timestamp string, so it is encoded as 0 and a real timestamp t as t+1. -/
def tsKey (f : SimFile) : ℕ :=
  match f.timestamp with
  | none => 0
  | some t => t + 1

/-- The comparator of results.sort(key=..., reverse=True): a stable sort
that may put a before b exactly when the key of a is at least the key of
b. -/
def sortLE (a b : SimFile) : Bool := tsKey b ≤ tsKey a

/-- Python list.sort is a stable merge sort. -/
def sortDesc (l : List SimFile) : List SimFile := List.mergeSort l sortLE

/-- The body of the retrieval loop: a file contributes a result when it
is a .json file, loads without exception, passes the model-name filter
(no filtering when the argument is None, and also none when it is the
empty string, which is falsy in Python), and passes the cutoff filter
(records without a timestamp key are not date-filtered). -/
def keepFile (model_name : Option String) (cutoff : ℕ) (f : SimFile) :
    Bool :=
  f.isJson && f.parseOk &&
  (match model_name with
   | none => true
   | some m => if m = "" then true else f.modelName == some m) &&
  (match f.timestamp with
   | none => true
   | some ts => cutoff ≤ ts)

/-- The results list built by the loop of get_recent_simulations, before
sorting and truncation; cutoff_date is now - timedelta(days). -/
def filteredCandidates (files : List SimFile) (model_name : Option String)
    (now days : ℕ) : List SimFile :=
  files.filter (keepFile model_name (now - days))

/-- get_recent_simulations: filter, sort newest-first, take limit. -/
def get_recent_simulations (files : List SimFile)
    (model_name : Option String) (now days limit : ℕ) : List SimFile :=
  (sortDesc (filteredCandidates files model_name now days)).take limit

lemma sortLE_trans (a b c : SimFile) (h1 : sortLE a b) (h2 : sortLE b c) :
    sortLE a c := by
  simp only [sortLE, decide_eq_true_eq] at *
  omega

lemma sortLE_total (a b : SimFile) : sortLE a b || sortLE b a := by
  simp only [sortLE, Bool.or_eq_true, decide_eq_true_eq]
  omega

lemma sortDesc_sorted (l : List SimFile) :
    (sortDesc l).Pairwise (fun a b => tsKey b ≤ tsKey a) := by
  have h := List.sorted_mergeSort sortLE_trans sortLE_total l
  exact h.imp (fun hab => by simpa [sortLE] using hab)

lemma sortDesc_of_sorted {l : List SimFile}
    (h : l.Pairwise (fun a b => tsKey b ≤ tsKey a)) : sortDesc l = l :=
  List.mergeSort_of_sorted (h.imp (fun hab => by simpa [sortLE] using hab))

lemma mem_sortDesc {f : SimFile} {l : List SimFile} :
    f ∈ sortDesc l ↔ f ∈ l := List.mem_mergeSort

/-- C4: a record returned by get_recent_simulations that carries a
created_at timestamp satisfies timestamp >= now - days; no timestamped
record outside the window is ever returned. -/
theorem recent_window_C4 (files : List SimFile) (model_name : Option String)
    (now days limit : ℕ) (r : SimFile) (ts : ℕ)
    (hr : r ∈ get_recent_simulations files model_name now days limit)
    (hts : r.timestamp = some ts) : now - days ≤ ts := by
  have h1 : r ∈ sortDesc (filteredCandidates files model_name now days) :=
    List.take_subset limit _ hr
  have h2 : r ∈ filteredCandidates files model_name now days :=
    mem_sortDesc.mp h1
  have h3 := (List.mem_filter.mp h2).2
  rw [keepFile.eq_def, hts] at h3
  simp only [Bool.and_eq_true, decide_eq_true_eq] at h3
  exact h3.2

/-- A well-formed stored record used by the C4 and C6 witnesses. -/
def sampleFileA : SimFile := ⟨true, true, some ("Model-A"), some 10⟩

lemma recent_singleton_A :
    get_recent_simulations [sampleFileA] none 12 5 5 = [sampleFileA] := by
  have hf : filteredCandidates [sampleFileA] none 12 5 = [sampleFileA] := by
    decide
  rw [get_recent_simulations, hf, sortDesc_of_sorted (by simp)]
  rfl

/-- Witness for C4: the sample record saved at time 10 is returned at
now = 12 with a 5-unit window, and indeed 12 - 5 ≤ 10. -/
theorem recent_window_C4_witness : 12 - 5 ≤ 10 :=
  recent_window_C4 [sampleFileA] none 12 5 5 sampleFileA 10
    (by rw [recent_singleton_A]; exact List.mem_singleton.mpr rfl) rfl

/-- C5: the returned sequence is sorted by the created_at key in
descending order, has at most limit elements, and the truncation happens
after the sort: every candidate left out has a key no larger than every
returned record. -/
theorem recent_sorted_C5 (files : List SimFile) (model_name : Option String)
    (now days limit : ℕ) :
    (get_recent_simulations files model_name now days limit).Pairwise
      (fun a b => tsKey b ≤ tsKey a) ∧
    (get_recent_simulations files model_name now days limit).length ≤ limit ∧
    (∀ r ∈ get_recent_simulations files model_name now days limit,
      ∀ s ∈ filteredCandidates files model_name now days,
        s ∉ get_recent_simulations files model_name now days limit →
        tsKey s ≤ tsKey r) := by
  refine ⟨?_, ?_, ?_⟩
  · exact (sortDesc_sorted _).sublist (List.take_sublist _ _)
  · rw [get_recent_simulations, List.length_take]
    exact min_le_left _ _
  · intro r hr s hs hns
    set L := sortDesc (filteredCandidates files model_name now days) with hL
    have hsL : s ∈ L := mem_sortDesc.mpr hs
    have hsplit : L.take limit ++ L.drop limit = L := List.take_append_drop _ _
    have hsorted : (L.take limit ++ L.drop limit).Pairwise
        (fun a b => tsKey b ≤ tsKey a) := by
      rw [hsplit]; exact sortDesc_sorted _
    have hdrop : s ∈ L.drop limit := by
      rcases List.mem_append.mp (hsplit ▸ hsL) with h | h
      · exact absurd h hns
      · exact h
    exact ((List.pairwise_append.mp hsorted).2.2) r hr s hdrop

/-- Three well-formed stored records, already newest-first, for the C5
witness. -/
def sampleDescFiles : List SimFile :=
  [⟨true, true, some ("A"), some 5⟩, ⟨true, true, some ("B"), some 3⟩,
   ⟨true, true, some ("C"), some 1⟩]

lemma recent_desc_eval :
    get_recent_simulations sampleDescFiles none 0 0 2
      = [⟨true, true, some ("A"), some 5⟩, ⟨true, true, some ("B"), some 3⟩] := by
  have hf : filteredCandidates sampleDescFiles none 0 0 = sampleDescFiles := by
    decide
  rw [get_recent_simulations, hf,
    sortDesc_of_sorted (by simp [sampleDescFiles, tsKey])]
  rfl

/-- Witness for C5: with three candidates and limit 2 the record with key
1 is dropped and every returned record has a key at least as large. -/
theorem recent_sorted_C5_witness :
    tsKey ⟨true, true, some ("C"), some 1⟩
      ≤ tsKey ⟨true, true, some ("A"), some 5⟩ :=
  (recent_sorted_C5 sampleDescFiles none 0 0 2).2.2
    ⟨true, true, some ("A"), some 5⟩
    (by rw [recent_desc_eval]; exact List.mem_cons_self _ _)
    ⟨true, true, some ("C"), some 1⟩
    (by decide)
    (by rw [recent_desc_eval]; decide)

/-- C6 as stated is false for the empty string: Python treats an empty
process_name as falsy and skips the filter, so a record of process
Model-A is returned although its name does not match the given "". -/
theorem model_filter_C6_counterexample :
    get_recent_simulations [sampleFileA] (some "") 12 5 5 = [sampleFileA] ∧
    sampleFileA.modelName ≠ some "" := by
  constructor
  · have hf : filteredCandidates [sampleFileA] (some "") 12 5
        = [sampleFileA] := by decide
    rw [get_recent_simulations, hf, sortDesc_of_sorted (by simp)]
    rfl
  · decide

/-- C6 amended: for every non-empty process_name the result holds only
exact matches; an omitted process_name filters nothing, so records of all
processes are candidates; and the empty string behaves exactly like an
omitted process_name rather than as an exact-match filter. -/
theorem model_filter_C6 :
    (∀ (files : List SimFile) (m : String) (now days limit : ℕ)
      (r : SimFile), m ≠ "" →
      r ∈ get_recent_simulations files (some m) now days limit →
      r.modelName = some m) ∧
    (∀ (files : List SimFile) (now days : ℕ) (f : SimFile), f ∈ files →
      f.isJson → f.parseOk →
      (∀ ts, f.timestamp = some ts → now - days ≤ ts) →
      f ∈ filteredCandidates files none now days) ∧
    (∀ (files : List SimFile) (now days : ℕ),
      filteredCandidates files (some "") now days
        = filteredCandidates files none now days) := by
  refine ⟨fun files m now days limit r hm hr => ?_,
    fun files now days f hf hj hp hts => ?_, fun files now days => ?_⟩
  · have h1 : r ∈ filteredCandidates files (some m) now days :=
      mem_sortDesc.mp (List.take_subset limit _ hr)
    have h2 := (List.mem_filter.mp h1).2
    rw [keepFile.eq_def] at h2
    simp only [Bool.and_eq_true] at h2
    have h3 := h2.1.2
    rw [if_neg hm] at h3
    exact beq_iff_eq.mp h3
  · refine List.mem_filter.mpr ⟨hf, ?_⟩
    have hts2 : (match f.timestamp with
        | none => true
        | some ts => decide (now - days ≤ ts)) = true := by
      cases h : f.timestamp with
      | none => rfl
      | some ts => simpa using hts ts h
    rw [keepFile.eq_def]
    simp only [hj, hp, hts2, Bool.and_true, Bool.true_and]
  · unfold filteredCandidates
    apply List.filter_congr
    intro f _
    rw [keepFile.eq_def, keepFile.eq_def]
    simp

/-- Witness for C6 amended: filtering the sample store by the non-empty
name Model-A only returns records named Model-A. -/
theorem model_filter_C6_witness :
    sampleFileA.modelName = some ("Model-A") :=
  model_filter_C6.1 [sampleFileA] "Model-A" 12 5 5 sampleFileA
    (by decide)
    (by
      have hf : filteredCandidates [sampleFileA] (some ("Model-A")) 12 5
          = [sampleFileA] := by decide
      rw [get_recent_simulations, hf, sortDesc_of_sorted (by simp)]
      exact List.mem_singleton.mpr rfl)

/-- save_simulation_run (json format): unconditionally sets the
timestamp entry to now and the model_name entry to the given name, then
writes the record as a parseable .json file whose name is the model name
with spaces replaced by underscores followed by the formatted timestamp;
it returns that file path. -/
def save_simulation_run (simulation_data : SimFile) (model_name : String)
    (now : ℕ) : SimFile × String :=
  ({ simulation_data with
      isJson := true
      parseOk := true
      timestamp := some now
      modelName := some model_name },
   (model_name.replace (" ") ("_")) ++ "_" ++ toString now ++ ".json")

/-- C7 as stated is false: the source assigns the timestamp
unconditionally, so a record arriving with created_at 5 is saved with
created_at 7 when now is 7, not left unchanged. -/
theorem save_timestamp_C7_counterexample :
    (save_simulation_run ⟨true, true, some ("A"), some 5⟩ "A" 7).1.timestamp
      = some 7 ∧ some 7 ≠ some 5 := by
  exact ⟨rfl, by decide⟩

/-- C7 amended: save_simulation_run assigns created_at = now
unconditionally, overwriting any created_at already present in the
record, and likewise overwrites the stored process name. -/
theorem save_timestamp_C7 (simulation_data : SimFile) (model_name : String)
    (now : ℕ) :
    (save_simulation_run simulation_data model_name now).1.timestamp
      = some now ∧
    (save_simulation_run simulation_data model_name now).1.modelName
      = some model_name :=
  ⟨rfl, rfl⟩

/-! ### Deletion (gui.py, delete_process_data) -/

/-- The deletion loop deletes a file when it ends in .json, loads
without exception, and its model_name entry equals the given process
name (data.get returns None for a missing key, which never equals a
string). -/
def matchesProcess (process_name : String) (f : SimFile) : Bool :=
  f.isJson && f.parseOk && (f.modelName == some process_name)

/-- delete_process_data from gui.py as a transformer on the directory
listing. dirExists models the os.path.exists guard (early return when
false). The first component is the remaining files, the second the local
counter deleted_files (logged by the source), the third the Python
return value, which is always None since the function returns no
value. -/
def delete_process_data (dirExists : Bool) (files : List SimFile)
    (process_name : String) : List SimFile × ℕ × Option ℕ :=
  if dirExists then
    (files.filter (fun f => ! matchesProcess process_name f),
     files.countP (matchesProcess process_name),
     none)
  else (files, 0, none)

lemma length_filter_not_add_countP (l : List SimFile) (p : SimFile → Bool) :
    (l.filter (fun f => ! p f)).length + l.countP p = l.length := by
  induction l with
  | nil => rfl
  | cons a t ih =>
    by_cases h : p a
    · simp [List.filter_cons, List.countP_cons, h]
      omega
    · simp [List.filter_cons, List.countP_cons, h]
      omega

/-- A stored record of process P for the C9 counterexample and
witness. -/
def victimFile : SimFile := ⟨true, true, some ("P"), some 3⟩

/-- C9 as stated is false on the return value: deleting process P from a
store holding one P-record removes that record and counts one deletion,
yet the operation returns None (the source only logs deleted_files and
has no return statement), not the count 1. -/
theorem delete_process_C9_counterexample :
    (delete_process_data true [victimFile] "P").1 = [] ∧
    (delete_process_data true [victimFile] "P").2.1 = 1 ∧
    (delete_process_data true [victimFile] "P").2.2 = none ∧
    (delete_process_data true [victimFile] "P").2.2 ≠ some 1 := by
  refine ⟨?_, ?_, rfl, by decide⟩
  · decide
  · decide

/-- C9 amended: delete_process_data removes exactly the records whose
stored process name matches the given name, counts the deletions in a
local counter that it logs but does not return (the call returns None),
and is idempotent: a second call with the same name, or a call with a
name holding no records, deletes zero records and succeeds without
error. -/
theorem delete_process_C9 (files : List SimFile) (name : String) :
    (∀ f, f ∈ (delete_process_data true files name).1 ↔
      f ∈ files ∧ ¬ matchesProcess name f = true) ∧
    ((delete_process_data true files name).1.length
        + (delete_process_data true files name).2.1 = files.length) ∧
    ((delete_process_data true files name).2.2 = none) ∧
    (delete_process_data true (delete_process_data true files name).1 name
      = ((delete_process_data true files name).1, 0, none)) ∧
    ((∀ f ∈ files, matchesProcess name f = false) →
      delete_process_data true files name = (files, 0, none)) := by
  refine ⟨fun f => ?_, ?_, rfl, ?_, fun hnone => ?_⟩
  · simp [delete_process_data, List.mem_filter]
  · exact length_filter_not_add_countP files (matchesProcess name)
  · unfold delete_process_data
    simp only [if_true]
    refine Prod.ext ?_ (Prod.ext ?_ rfl)
    · rw [List.filter_filter]
      apply List.filter_congr
      intro f _
      rw [Bool.and_self]
    · rw [List.countP_eq_zero]
      intro f hf
      have h2 := (List.mem_filter.mp hf).2
      intro hcontra
      rw [hcontra] at h2
      exact absurd h2 (by decide)
  · unfold delete_process_data
    simp only [if_true]
    refine Prod.ext ?_ (Prod.ext ?_ rfl)
    · apply List.filter_eq_self.mpr
      intro f hf
      simp [hnone f hf]
    · rw [List.countP_eq_zero]
      intro f hf
      simp [hnone f hf]

/-- Witness for C9 amended: deleting the unknown process Q from a store
holding one P-record deletes zero records and leaves the store intact. -/
theorem delete_process_C9_witness :
    delete_process_data true [victimFile] "Q" = ([victimFile], 0, none) :=
  (delete_process_C9 [victimFile] "Q").2.2.2.2 (by decide)

end OEE
